import Mathlib

/-!
Shallow embedding of the `service-manager-cli` authenticated client:
`pkg/auth/oidc/common.go` (OIDC token-source selection and the `Client`
wrapper) and `pkg/smclient/client.go` (the generic CRUD client and its
response/error normalisation).

External effects (the HTTP transport, the token-endpoint exchange, JSON
decoding of a concrete body) are passed in as explicit inputs, so every
definition is a pure function of the code's inputs.
-/

namespace SM

/-! ## Data model: tokens and options (`pkg/auth`) -/

/-- Embeds `auth.Token`: access token, optional refresh token, expiry timestamp
(`ExpiresIn` is a `time.Time` in the source), token type.  Time is modelled
as an integer; `0` stands for Go's zero `time.Time`. -/
structure AuthToken where
  accessToken : String
  refreshToken : String
  expiresIn : Int
  tokenType : String
deriving Repr, DecidableEq

/-- Embeds `oauth2.Token` from `golang.org/x/oauth2`: the four fields the client
reads and writes.  The zero value has empty strings and zero expiry. -/
structure Oauth2Token where
  accessToken : String
  refreshToken : String
  expiry : Int
  tokenType : String
deriving Repr, DecidableEq

/-- The zero `oauth2.Token` (`var tt oauth2.Token`). -/
def Oauth2Token.zero : Oauth2Token :=
  { accessToken := "", refreshToken := "", expiry := 0, tokenType := "" }

/-- Embeds `auth.Options`: the configuration fields `NewClient` and the token
sources read. -/
structure Options where
  issuerURL : String
  clientID : String
  clientSecret : String
  authorizationEndpoint : String
  tokenEndpoint : String
  sslDisabled : Bool
  tokenBasicAuth : Bool
  timeout : Int
deriving Repr, DecidableEq

/-- Embeds `common.go` lines 48-54: convert the optional `*auth.Token` into the
`oauth2.Token` value `tt` (zero value when the pointer is nil). -/
def toOauth2Token : Option AuthToken → Oauth2Token
  | none => Oauth2Token.zero
  | some t =>
    { accessToken := t.accessToken
      refreshToken := t.refreshToken
      expiry := t.expiresIn
      tokenType := t.tokenType }

/-- Embeds `Client.Token()` lines 113-118: convert the `oauth2.Token` returned by
the token source back into an `auth.Token`. -/
def fromOauth2Token (t : Oauth2Token) : AuthToken :=
  { accessToken := t.accessToken
    refreshToken := t.refreshToken
    expiresIn := t.expiry
    tokenType := t.tokenType }

/-! ## `golang.org/x/oauth2` token-source semantics

Both branches of `NewClient` produce a source with `oauth2.ReuseTokenSource`
semantics: `clientCredentialsTokenSource` wraps the client-credentials
source in `oauth2.ReuseTokenSource(&token, ...)` explicitly, and
`oauth2.Config.TokenSource(ctx, &token)` (the refresh branch) is
`ReuseTokenSource` around a `tokenRefresher` in the library.  `Token()`
returns the cached token while it is valid, and otherwise performs one
exchange with the underlying source. -/

/-- Embeds `oauth2.expiryDelta`: a token is treated as expired this long before
its stated expiry. -/
def expiryDelta : Int := 10

/-- Embeds `oauth2.Token.expired()`: false when the expiry is the zero time,
otherwise true once `expiry - expiryDelta` is before `now`. -/
def tokenExpired (t : Oauth2Token) (now : Int) : Bool :=
  if t.expiry = 0 then false else decide (t.expiry - expiryDelta < now)

/-- Embeds `oauth2.Token.Valid()`: a non-nil token with a non-empty access token
that has not expired. -/
def tokenValid (t : Oauth2Token) (now : Int) : Bool :=
  !(t.accessToken = "") && !(tokenExpired t now)

/-- One `Token()` call on a `ReuseTokenSource` with cached token `cached`
at time `now`.  `exchange` is the outcome the underlying source would
produce if consulted.  Returns the call's result, the new cached token,
and the number of token-endpoint exchanges performed. -/
def reuseTokenSourceToken (cached : Oauth2Token) (now : Int)
    (exchange : Except String Oauth2Token) :
    Except String Oauth2Token × Oauth2Token × Nat :=
  if tokenValid cached now then (Except.ok cached, cached, 0)
  else
    match exchange with
    | Except.ok t => (Except.ok t, t, 1)
    | Except.error e => (Except.error e, cached, 1)

/-! ## `NewClient`: token-source selection (`common.go` lines 35-69) -/

/-- The two token-source strategies `NewClient` can construct. -/
inductive TokenSourceKind where
  | clientCredentials
  | refreshToken
deriving Repr, DecidableEq

/-- An `oauth2.TokenSource` as the client holds one: which strategy built
it, and the token it currently caches (`ReuseTokenSource` semantics for
both, see above). -/
structure TokenSource where
  kind : TokenSourceKind
  cached : Oauth2Token
deriving Repr, DecidableEq

/-- Embeds `clientCredentialsTokenSource` (`common.go` lines 83-93): a
client-credentials source wrapped in `oauth2.ReuseTokenSource(&token, _)`,
so the supplied token is the wrapper's initial cached token. -/
def clientCredentialsTokenSource (_options : Options) (token : Oauth2Token) :
    TokenSource :=
  { kind := TokenSourceKind.clientCredentials, cached := token }

/-- Embeds `refreshTokenSource` (`common.go` lines 71-81):
`oauth2.Config.TokenSource(ctx, &token)`, which the library wraps in
`ReuseTokenSource` seeded with the supplied token. -/
def refreshTokenSource (_options : Options) (token : Oauth2Token) :
    TokenSource :=
  { kind := TokenSourceKind.refreshToken, cached := token }

/-- The `oidc.Client` as far as its token behaviour goes: the single
token source chosen at construction. -/
structure OIDCClient where
  tokenSource : TokenSource
deriving Repr, DecidableEq

/-- Embeds `NewClient` (`common.go` lines 48-68): build `tt` from the optional
token, then choose the strategy — client-credentials when the token is nil
or carries no refresh token, refresh otherwise — seeding the source with
`tt` in either case. -/
def newClient (options : Options) (token : Option AuthToken) : OIDCClient :=
  let tt := toOauth2Token token
  if token = none ∨ tt.refreshToken = "" then
    { tokenSource := clientCredentialsTokenSource options tt }
  else
    { tokenSource := refreshTokenSource options tt }

/-- One `tokenSource.Token()` call through the client: `ReuseTokenSource`
semantics on the source's cached token; the strategy field is untouched
and the `tokenSource` field of the client is never replaced. -/
def clientTokenStep (c : OIDCClient) (now : Int)
    (exchange : Except String Oauth2Token) :
    Except String Oauth2Token × OIDCClient × Nat :=
  let r := reuseTokenSourceToken c.tokenSource.cached now exchange
  (r.1, { tokenSource := { c.tokenSource with cached := r.2.1 } }, r.2.2)

/-- Embeds `Client.Token()` (`common.go` lines 108-119): ask the token source for
a token and convert it back to an `auth.Token`; errors propagate. -/
def clientTokenMethod (c : OIDCClient) (now : Int)
    (exchange : Except String Oauth2Token) :
    Except String AuthToken × OIDCClient :=
  let s := clientTokenStep c now exchange
  match s.1 with
  | Except.ok t => (Except.ok (fromOauth2Token t), s.2.1)
  | Except.error e => (Except.error e, s.2.1)

/-- Run a sequence of `Token()` calls (each with its own clock reading and
underlying-exchange outcome) against a client, returning the final client. -/
def runTokenCalls (c : OIDCClient) : List (Int × Except String Oauth2Token) → OIDCClient
  | [] => c
  | p :: rest => runTokenCalls (clientTokenStep c p.1 p.2).2.1 rest

/-- Like `runTokenCalls`, additionally counting the token-endpoint
exchanges performed across the whole sequence. -/
def runTokenCallsCount (c : OIDCClient) :
    List (Int × Except String Oauth2Token) → OIDCClient × Nat
  | [] => (c, 0)
  | p :: rest =>
    let s := clientTokenStep c p.1 p.2
    let r := runTokenCallsCount s.2.1 rest
    (r.1, s.2.2 + r.2)

/-! ## `pkg/smclient/client.go`: the generic CRUD client

The HTTP transport is an input: each operation receives the outcome the
transport would produce for its request — either a network-level error or
a response.  A response is its status code together with the two decode
views the client may apply to its body: decoding as a
`map[string]interface{}` for the error path, and decoding into the
operation's expected result type for the success path. -/

/-- Embeds `errors.ResponseError`: status code, request URL, and best-effort
server-supplied error message and description.  Go's zero value for the
string fields is `""`. -/
structure ResponseError where
  url : String
  statusCode : Nat
  errorMessage : String
  description : String
deriving Repr, DecidableEq

/-- Embeds `errors.ResponseError{StatusCode: code}`: only the status code set,
every other field at its zero value. -/
def statusOnlyError (code : Nat) : ResponseError :=
  { url := "", statusCode := code, errorMessage := "", description := "" }

/-- The outcome of `httputil.UnmarshalResponse(resp, &respContent)` with
`respContent : map[string]interface{}`: the body is either not decodable
at all, or decodes to an object whose `"error"` and `"description"` keys
may each hold a string (`none` covers both an absent key and a key whose
value fails the `.(string)` assertion). -/
inductive ErrorBody where
  | unparsable
  | object (errorField : Option String) (descriptionField : Option String)
deriving Repr, DecidableEq

/-- An HTTP response as the client consumes it: the status code, the
error-path decode view of the body, and the success-path decode view into
the expected result type `α`. -/
structure Resp (α : Type) where
  statusCode : Nat
  errBody : ErrorBody
  decode : Except String α
deriving Repr

/-- The errors a client operation returns: a plain Go `error` (request
construction, transport, JSON (un)marshalling) or a structured
`errors.ResponseError`. -/
inductive SMError where
  | requestError (e : String)
  | responseError (e : ResponseError)
deriving Repr, DecidableEq

/-- The `(resp, err)` pair `Call` returns, keeping the nil-ness of each
component: `(resp, nil)`, `(nil, err)`, or `(resp, err)` with both
non-nil. -/
inductive CallOutcome (α : Type) where
  | success (resp : Resp α)
  | errorOnly (e : SMError)
  | respAndError (resp : Resp α) (e : SMError)
deriving Repr

/-- Embeds `query.Parameters`: field queries, label queries, and the opaque
already-encoded general parameters.  A `none` argument models a nil
`*query.Parameters`. -/
structure Parameters where
  fieldQuery : List String
  labelQuery : List String
  generalParams : List String
deriving Repr, DecidableEq

/-- Modelled from the spec: `query.Parameters.Encode` (package
`pkg/query`, not under `src/`) renders the already-opaque parameters as a
query string; a nil receiver or an empty parameter set encodes to the
empty string (`GetInfo(nil)` inside `NewClientWithAuth` relies on nil
being accepted). -/
def encodeParameters : Option Parameters → String
  | none => ""
  | some q => String.intercalate "&" (q.fieldQuery ++ q.labelQuery ++ q.generalParams)

/-- Embeds `buildURL` (`client.go` lines 386-392): append `?` and the encoded
parameters when they are non-empty. -/
def buildURL (baseURL : String) (q : Option Parameters) : String :=
  let queryParams := encodeParameters q
  if queryParams = "" then baseURL else baseURL ++ "?" ++ queryParams

/-- Modelled from the spec: `httputil.NormalizeURL` (not under `src/`)
normalises the configured base URL; modelled as stripping one trailing
slash.  No claim depends on its exact behaviour. -/
def normalizeURL (u : String) : String :=
  if u.toList.getLast? = some '/' then String.mk (u.toList.dropLast) else u

/-- Embeds `Call` (`client.go` lines 347-384).  `doResult` is the outcome of
`client.httpClient.Do(req)`; a failure of `http.NewRequest` is folded into
its error case, since both return `(nil, err)` before any status handling.
For a status outside 200-299 a `ResponseError` with the status and the
full request URL is built; the body is then decoded best-effort: if it
cannot be decoded the raw response is returned together with the error,
otherwise string `"error"`/`"description"` fields are copied into the
error and `(nil, err)` is returned. -/
def call {α : Type} (configURL : String) (smpath : String)
    (q : Option Parameters) (doResult : Except String (Resp α)) :
    CallOutcome α :=
  let fullURL := normalizeURL configURL ++ buildURL smpath q
  match doResult with
  | Except.error e => CallOutcome.errorOnly (SMError.requestError e)
  | Except.ok resp =>
    if resp.statusCode < 200 ∨ resp.statusCode > 299 then
      let respErr : ResponseError :=
        { url := fullURL, statusCode := resp.statusCode
          errorMessage := "", description := "" }
      match resp.errBody with
      | ErrorBody.unparsable =>
        CallOutcome.respAndError resp (SMError.responseError respErr)
      | ErrorBody.object errField descrField =>
        let respErr := match errField with
          | some s => { respErr with errorMessage := s }
          | none => respErr
        let respErr := match descrField with
          | some s => { respErr with description := s }
          | none => respErr
        CallOutcome.errorOnly (SMError.responseError respErr)
    else CallOutcome.success resp

/-- Embeds `register` (`client.go` lines 159-176): marshal the resource, `POST`
via `Call`, require status 201 (`http.StatusCreated`), then decode the
body into the result.  A non-201 status from a successful `Call` yields
`errors.ResponseError{StatusCode: ...}` — status only, no URL. -/
def registerOp {α : Type} (marshal : Except String Unit) (configURL : String)
    (url : String) (q : Option Parameters)
    (doResult : Except String (Resp α)) : Except SMError α :=
  match marshal with
  | Except.error e => Except.error (SMError.requestError e)
  | Except.ok _ =>
    match call configURL url q doResult with
    | CallOutcome.errorOnly e => Except.error e
    | CallOutcome.respAndError _ e => Except.error e
    | CallOutcome.success resp =>
      if resp.statusCode ≠ 201 then
        Except.error (SMError.responseError (statusOnlyError resp.statusCode))
      else
        match resp.decode with
        | Except.ok v => Except.ok v
        | Except.error e => Except.error (SMError.requestError e)

/-- Embeds `list` (`client.go` lines 231-242): `GET` via `Call`, require status
200, then decode the body into the result. -/
def listOp {α : Type} (configURL : String) (url : String)
    (q : Option Parameters) (doResult : Except String (Resp α)) :
    Except SMError α :=
  match call configURL url q doResult with
  | CallOutcome.errorOnly e => Except.error e
  | CallOutcome.respAndError _ e => Except.error e
  | CallOutcome.success resp =>
    if resp.statusCode ≠ 200 then
      Except.error (SMError.responseError (statusOnlyError resp.statusCode))
    else
      match resp.decode with
      | Except.ok v => Except.ok v
      | Except.error e => Except.error (SMError.requestError e)

/-- Embeds `update` (`client.go` lines 311-327): marshal the resource, `PATCH`
via `Call`, require status 200, then decode the body into the result. -/
def updateOp {α : Type} (marshal : Except String Unit) (configURL : String)
    (url : String) (id : String) (q : Option Parameters)
    (doResult : Except String (Resp α)) : Except SMError α :=
  match marshal with
  | Except.error e => Except.error (SMError.requestError e)
  | Except.ok _ =>
    match call configURL (url ++ "/" ++ id) q doResult with
    | CallOutcome.errorOnly e => Except.error e
    | CallOutcome.respAndError _ e => Except.error e
    | CallOutcome.success resp =>
      if resp.statusCode ≠ 200 then
        Except.error (SMError.responseError (statusOnlyError resp.statusCode))
      else
        match resp.decode with
        | Except.ok v => Except.ok v
        | Except.error e => Except.error (SMError.requestError e)

/-- Embeds `delete` (`client.go` lines 271-282): `DELETE` via `Call`, require
status 200; the response body is not decoded. -/
def deleteOp (configURL : String) (url : String) (q : Option Parameters)
    (doResult : Except String (Resp Unit)) : Except SMError Unit :=
  match call configURL url q doResult with
  | CallOutcome.errorOnly e => Except.error e
  | CallOutcome.respAndError _ e => Except.error e
  | CallOutcome.success resp =>
    if resp.statusCode ≠ 200 then
      Except.error (SMError.responseError (statusOnlyError resp.statusCode))
    else Except.ok ()

/-- Embeds `Label` (`client.go` lines 329-345): marshal the label changes,
`PATCH` via `Call`, require status 200; the response body is not
decoded. -/
def labelOp (marshal : Except String Unit) (configURL : String)
    (url : String) (id : String) (q : Option Parameters)
    (doResult : Except String (Resp Unit)) : Except SMError Unit :=
  match marshal with
  | Except.error e => Except.error (SMError.requestError e)
  | Except.ok _ =>
    match call configURL (url ++ "/" ++ id) q doResult with
    | CallOutcome.errorOnly e => Except.error e
    | CallOutcome.respAndError _ e => Except.error e
    | CallOutcome.success resp =>
      if resp.statusCode ≠ 200 then
        Except.error (SMError.responseError (statusOnlyError resp.statusCode))
      else Except.ok ()

/-! ## Resource types and `ListOfferings`

URL constants come from the external `service-manager/pkg/web` package;
their exact string values are irrelevant to every claim. -/

def infoURL : String := "/v1/info"

def platformsURL : String := "/v1/platforms"

def serviceBrokersURL : String := "/v1/service_brokers"

def visibilitiesURL : String := "/v1/visibilities"

def serviceOfferingsURL : String := "/v1/service_offerings"

def servicePlansURL : String := "/v1/service_plans"

/-- Embeds `types.ServiceOffering`: the fields `ListOfferings` reads and writes.
Plans are kept opaque (one string per `types.ServicePlan`). -/
structure ServiceOffering where
  id : String
  brokerID : String
  plans : List String
  brokerName : String
deriving Repr, DecidableEq

/-- Embeds `types.ServiceOfferings`. -/
structure ServiceOfferings where
  serviceOfferings : List ServiceOffering
deriving Repr, DecidableEq

/-- Embeds `types.ServicePlans`, plans kept opaque. -/
structure ServicePlans where
  servicePlans : List String
deriving Repr, DecidableEq

/-- Embeds `types.Broker`: only the field `ListOfferings` reads. -/
structure Broker where
  name : String
deriving Repr, DecidableEq

/-- Embeds `types.Platforms`, platforms kept opaque. -/
structure Platforms where
  platforms : List String
deriving Repr, DecidableEq

/-- Embeds `types.Brokers`. -/
structure Brokers where
  brokers : List Broker
deriving Repr, DecidableEq

/-- Embeds `types.Visibilities`, visibilities kept opaque. -/
structure Visibilities where
  visibilities : List String
deriving Repr, DecidableEq

/-- The result of a Go function that may also panic (here: only by
dereferencing a nil pointer). -/
inductive GoResult (α : Type) where
  | panicked
  | err (e : SMError)
  | ok (v : α)
deriving Repr

/-- Reading `q.GeneralParams` through a possibly-nil `*query.Parameters`:
on a nil pointer the read panics (`none`). -/
def readGeneralParams : Option Parameters → Option (List String)
  | none => none
  | some q => some q.generalParams

/-- The loop body of `ListOfferings` (`client.go` lines 207-227), one
iteration per offering: build `&query.Parameters{FieldQuery: [...],
GeneralParams: q.GeneralParams}` — evaluating `q.GeneralParams` panics
when `q` is nil — list the offering's plans, then list its broker with
`&query.Parameters{GeneralParams: q.GeneralParams}`, and write the plans
and broker name back into the offering.  `doPlans i` and `doBroker i` are
the transport outcomes for iteration `i`'s two requests. -/
def listOfferingsLoop (configURL : String) (q : Option Parameters)
    (doPlans : Nat → Except String (Resp ServicePlans))
    (doBroker : Nat → Except String (Resp Broker)) :
    List ServiceOffering → Nat → GoResult (List ServiceOffering)
  | [], _ => GoResult.ok []
  | so :: rest, i =>
    match readGeneralParams q with
    | none => GoResult.panicked
    | some gp =>
      let plansParams : Parameters :=
        { fieldQuery := ["service_offering_id = " ++ so.id]
          labelQuery := [], generalParams := gp }
      match listOp configURL servicePlansURL (some plansParams) (doPlans i) with
      | Except.error e => GoResult.err e
      | Except.ok plans =>
        match readGeneralParams q with
        | none => GoResult.panicked
        | some gp2 =>
          let brokerParams : Parameters :=
            { fieldQuery := [], labelQuery := [], generalParams := gp2 }
          match listOp configURL (serviceBrokersURL ++ "/" ++ so.brokerID)
              (some brokerParams) (doBroker i) with
          | Except.error e => GoResult.err e
          | Except.ok broker =>
            match listOfferingsLoop configURL q doPlans doBroker rest (i + 1) with
            | GoResult.panicked => GoResult.panicked
            | GoResult.err e => GoResult.err e
            | GoResult.ok others =>
              GoResult.ok
                ({ so with plans := plans.servicePlans
                           brokerName := broker.name } :: others)

/-- Embeds `ListOfferings` (`client.go` lines 201-229): list the offerings, then
run the enrichment loop over the returned list.  The nil-`q` dereference
can only happen inside the loop, i.e. when the offerings list is
non-empty. -/
def listOfferings (configURL : String) (q : Option Parameters)
    (doOfferings : Except String (Resp ServiceOfferings))
    (doPlans : Nat → Except String (Resp ServicePlans))
    (doBroker : Nat → Except String (Resp Broker)) :
    GoResult ServiceOfferings :=
  match listOp configURL serviceOfferingsURL q doOfferings with
  | Except.error e => GoResult.err e
  | Except.ok offs =>
    match listOfferingsLoop configURL q doPlans doBroker offs.serviceOfferings 0 with
    | GoResult.panicked => GoResult.panicked
    | GoResult.err e => GoResult.err e
    | GoResult.ok updated => GoResult.ok { serviceOfferings := updated }

/-- Embeds `ListPlatforms` (`client.go` lines 187-192): a plain `list` into
`types.Platforms`; `q` is only handed on, never dereferenced.  (The Go
function returns the partially-filled struct alongside the error; only
the error/panic structure matters here.) -/
def listPlatforms (configURL : String) (q : Option Parameters)
    (doResult : Except String (Resp Platforms)) : GoResult Platforms :=
  match listOp configURL platformsURL q doResult with
  | Except.error e => GoResult.err e
  | Except.ok v => GoResult.ok v

/-- Embeds `ListBrokers` (`client.go` lines 179-184): a plain `list` into
`types.Brokers`. -/
def listBrokers (configURL : String) (q : Option Parameters)
    (doResult : Except String (Resp Brokers)) : GoResult Brokers :=
  match listOp configURL serviceBrokersURL q doResult with
  | Except.error e => GoResult.err e
  | Except.ok v => GoResult.ok v

/-- Embeds `ListVisibilities` (`client.go` lines 194-198): a plain `list` into
`types.Visibilities`. -/
def listVisibilities (configURL : String) (q : Option Parameters)
    (doResult : Except String (Resp Visibilities)) : GoResult Visibilities :=
  match listOp configURL visibilitiesURL q doResult with
  | Except.error e => GoResult.err e
  | Except.ok v => GoResult.ok v

/-! ## `GetInfo`, discovery, and `NewClientWithAuth` -/

/-- Embeds `types.Info`: the field `NewClientWithAuth` reads. -/
structure Info where
  tokenIssuerURL : String
deriving Repr, DecidableEq

/-- Embeds `GetInfo` (`client.go` lines 110-127): `GET web.InfoURL` via `Call`,
require status 200, then decode into `types.DefaultInfo`; a non-200
status yields `errors.ResponseError{StatusCode: ...}` — status only, no
URL. -/
def getInfo (configURL : String) (q : Option Parameters)
    (doResult : Except String (Resp Info)) : Except SMError Info :=
  match call configURL infoURL q doResult with
  | CallOutcome.errorOnly e => Except.error e
  | CallOutcome.respAndError _ e => Except.error e
  | CallOutcome.success resp =>
    if resp.statusCode ≠ 200 then
      Except.error (SMError.responseError (statusOnlyError resp.statusCode))
    else
      match resp.decode with
      | Except.ok v => Except.ok v
      | Except.error e => Except.error (SMError.requestError e)

/-- Embeds `openIDConfiguration`: the two endpoints the discovery document must
carry. -/
structure OpenIDConfiguration where
  authorizationEndpoint : String
  tokenEndpoint : String
deriving Repr, DecidableEq

/-- Embeds `fetchOpenidConfiguration` (`common.go` lines 124-145): `GET
{issuer}/.well-known/openid-configuration`, propagate a request error, on
a status other than 200 return `errors.New("unexpected status code")`,
otherwise decode the configuration.  A failure of `http.NewRequest` is
folded into `readConfigurationFunc`'s error case, since both return
`(nil, err)` before the status check. -/
def fetchOpenidConfiguration (issuerURL : String)
    (readConfigurationFunc : String → Except String (Resp OpenIDConfiguration)) :
    Except String OpenIDConfiguration :=
  match readConfigurationFunc (issuerURL ++ "/.well-known/openid-configuration") with
  | Except.error e => Except.error e
  | Except.ok response =>
    if response.statusCode ≠ 200 then Except.error "unexpected status code"
    else response.decode

/-- Modelled from the spec: `oidc.NewOpenIDStrategy` (package
`pkg/auth/oidc`, not under `src/`) performs the discovery fetch via
`fetchOpenidConfiguration` and, on success, returns the options completed
with the discovered authorization and token endpoints; a discovery
failure is the construction error. -/
def newOpenIDStrategy (options : Options)
    (readConfigurationFunc : String → Except String (Resp OpenIDConfiguration)) :
    Except String Options :=
  match fetchOpenidConfiguration options.issuerURL readConfigurationFunc with
  | Except.error e => Except.error e
  | Except.ok cfg =>
    Except.ok { options with
      authorizationEndpoint := cfg.authorizationEndpoint
      tokenEndpoint := cfg.tokenEndpoint }

/-- Embeds `ClientConfig`: the fields `NewClientWithAuth` reads. -/
structure ClientConfig where
  url : String
  clientID : String
  clientSecret : String
  sslDisabled : Bool
deriving Repr, DecidableEq

/-- Embeds `NewClientWithAuth` (`client.go` lines 72-103): fetch the info
document with `GetInfo(nil)`, build `auth.Options` from it (all other
option fields at their zero values), run `NewOpenIDStrategy`, obtain a
token, and construct the authenticated client with `oidc.NewClient`.
Every failure returns `(nil, err)`.  `getTokenResult` stands for
`auth.GetToken` (not under `src/`), whose outcome is external
input; string errors from the auth layer are wrapped as
`SMError.requestError` to give the function a single error type. -/
def newClientWithAuth (config : ClientConfig)
    (infoDo : Except String (Resp Info))
    (readConfigurationFunc : String → Except String (Resp OpenIDConfiguration))
    (getTokenResult : Options → Except String AuthToken) :
    Except SMError OIDCClient :=
  match getInfo config.url none infoDo with
  | Except.error e => Except.error e
  | Except.ok info =>
    let authOptions : Options :=
      { issuerURL := info.tokenIssuerURL
        clientID := config.clientID
        clientSecret := config.clientSecret
        authorizationEndpoint := ""
        tokenEndpoint := ""
        sslDisabled := config.sslDisabled
        tokenBasicAuth := false
        timeout := 0 }
    match newOpenIDStrategy authOptions readConfigurationFunc with
    | Except.error e => Except.error (SMError.requestError e)
    | Except.ok authOptions2 =>
      match getTokenResult authOptions2 with
      | Except.error e => Except.error (SMError.requestError e)
      | Except.ok token => Except.ok (newClient authOptions2 (some token))

/-! ## Shared lemmas and sample inputs -/

/-- Concrete options for witness instantiations. -/
def sampleOptions : Options :=
  { issuerURL := "https://auth.example.com"
    clientID := "cf"
    clientSecret := "secret"
    authorizationEndpoint := ""
    tokenEndpoint := ""
    sslDisabled := false
    tokenBasicAuth := true
    timeout := 30 }

/-- Concrete refresh-capable token for witness instantiations. -/
def sampleToken : AuthToken :=
  { accessToken := "at", refreshToken := "rt", expiresIn := 1000, tokenType := "bearer" }

/-- One `Token()` call never changes which strategy the client's token
source uses. -/
theorem clientTokenStep_kind (c : OIDCClient) (now : Int)
    (exchange : Except String Oauth2Token) :
    (clientTokenStep c now exchange).2.1.tokenSource.kind = c.tokenSource.kind := rfl

/-- A whole sequence of `Token()` calls never changes the strategy. -/
theorem runTokenCalls_kind (calls : List (Int × Except String Oauth2Token)) :
    ∀ c : OIDCClient, (runTokenCalls c calls).tokenSource.kind = c.tokenSource.kind := by
  induction calls with
  | nil => intro c; rfl
  | cons p rest ih =>
    intro c
    rw [runTokenCalls, ih]
    exact clientTokenStep_kind c p.1 p.2

/-- While the cached token stays valid at every call time, `Token()` calls
change nothing and perform no exchange. -/
theorem runTokenCallsCount_of_valid (ts : TokenSource) :
    ∀ calls : List (Int × Except String Oauth2Token),
      (∀ p ∈ calls, tokenValid ts.cached p.1 = true) →
      runTokenCallsCount { tokenSource := ts } calls = ({ tokenSource := ts }, 0) := by
  intro calls
  induction calls with
  | nil => intro _; rfl
  | cons p rest ih =>
    intro h
    have hp : tokenValid ts.cached p.1 = true := h p (List.mem_cons_self _ _)
    have hstep : clientTokenStep { tokenSource := ts } p.1 p.2 =
        (Except.ok ts.cached, { tokenSource := ts }, 0) := by
      simp [clientTokenStep, reuseTokenSourceToken, hp]
    rw [runTokenCallsCount, hstep]
    rw [ih (fun q hq => h q (List.mem_cons_of_mem _ hq))]
    rfl

/-- On a status inside 200-299, `Call` returns the response with nil
error. -/
theorem call_success {α : Type} (configURL smpath : String) (q : Option Parameters)
    (resp : Resp α) (h1 : 200 ≤ resp.statusCode) (h2 : resp.statusCode ≤ 299) :
    call configURL smpath q (Except.ok resp) = CallOutcome.success resp := by
  have hcond : ¬ (resp.statusCode < 200 ∨ resp.statusCode > 299) := by omega
  simp [call, hcond]

/-- On a status outside 200-299, `Call` produces a `ResponseError`
carrying that status and the full request URL — alone when the body
decodes, alongside the raw response when it does not. -/
theorem call_failure {α : Type} (configURL smpath : String) (q : Option Parameters)
    (resp : Resp α) (h : resp.statusCode < 200 ∨ resp.statusCode > 299) :
    ∃ re : ResponseError,
      re.statusCode = resp.statusCode ∧
      re.url = normalizeURL configURL ++ buildURL smpath q ∧
      (call configURL smpath q (Except.ok resp) =
          CallOutcome.errorOnly (SMError.responseError re) ∨
        call configURL smpath q (Except.ok resp) =
          CallOutcome.respAndError resp (SMError.responseError re)) := by
  rcases hb : resp.errBody with _ | ⟨ef, df⟩
  · refine ⟨{ url := normalizeURL configURL ++ buildURL smpath q
              statusCode := resp.statusCode
              errorMessage := "", description := "" }, rfl, rfl, Or.inr ?_⟩
    simp [call, h, hb]
  · refine ⟨{ url := normalizeURL configURL ++ buildURL smpath q
              statusCode := resp.statusCode
              errorMessage := ef.getD "", description := df.getD "" }, rfl, rfl, Or.inl ?_⟩
    cases ef <;> cases df <;> simp [call, h, hb]

/-! ## The claims -/

/-- Concrete response: status 200 with a decodable body. -/
def ok200Resp : Resp Unit :=
  { statusCode := 200, errBody := ErrorBody.object none none, decode := Except.ok () }

/-- C2 fails as stated on `register`: a status-200 response with a
decodable body makes `register` return a `ResponseError` with status 200
and no decoded value, although the claim promises that every CRUD
operation succeeds on status 200. -/
theorem C2_counterexample_register_200 :
    registerOp (Except.ok ()) "http://sm.example.com" platformsURL none
      (Except.ok ok200Resp) =
      Except.error (SMError.responseError (statusOnlyError 200)) := by
  rfl

/-- C2 amended: each operation accepts exactly one success status — 201
for `register`, 200 for `list`, `update` and `delete`.  On its success
status with a body of the expected shape the operation returns the
decoded value and no error; on any other status it returns no value and a
`ResponseError` carrying that status. -/
theorem C2_amended_status_mapping {α : Type} (configURL url id : String)
    (q : Option Parameters) (resp : Resp α) (respU : Resp Unit) :
    (resp.statusCode = 201 → ∀ v : α, resp.decode = Except.ok v →
      registerOp (Except.ok ()) configURL url q (Except.ok resp) = Except.ok v) ∧
    (resp.statusCode ≠ 201 →
      ∃ re : ResponseError, re.statusCode = resp.statusCode ∧
        registerOp (Except.ok ()) configURL url q (Except.ok resp) =
          Except.error (SMError.responseError re)) ∧
    (resp.statusCode = 200 → ∀ v : α, resp.decode = Except.ok v →
      listOp configURL url q (Except.ok resp) = Except.ok v ∧
      updateOp (Except.ok ()) configURL url id q (Except.ok resp) = Except.ok v) ∧
    (resp.statusCode ≠ 200 →
      (∃ re : ResponseError, re.statusCode = resp.statusCode ∧
        listOp configURL url q (Except.ok resp) =
          Except.error (SMError.responseError re)) ∧
      (∃ re : ResponseError, re.statusCode = resp.statusCode ∧
        updateOp (Except.ok ()) configURL url id q (Except.ok resp) =
          Except.error (SMError.responseError re))) ∧
    (respU.statusCode = 200 →
      deleteOp configURL url q (Except.ok respU) = Except.ok ()) ∧
    (respU.statusCode ≠ 200 →
      ∃ re : ResponseError, re.statusCode = respU.statusCode ∧
        deleteOp configURL url q (Except.ok respU) =
          Except.error (SMError.responseError re)) := by
  refine ⟨?_, ?_, ?_, ?_, ?_, ?_⟩
  · intro hst v hdec
    have hc := call_success configURL url q resp (by omega) (by omega)
    simp [registerOp, hc, hst, hdec]
  · intro hne
    by_cases hin : 200 ≤ resp.statusCode ∧ resp.statusCode ≤ 299
    · have hc := call_success configURL url q resp hin.1 hin.2
      exact ⟨statusOnlyError resp.statusCode, rfl, by simp [registerOp, hc, hne]⟩
    · have h2 : resp.statusCode < 200 ∨ resp.statusCode > 299 := by omega
      obtain ⟨re, hst, _, hcase⟩ := call_failure configURL url q resp h2
      refine ⟨re, hst, ?_⟩
      rcases hcase with hc | hc <;> simp [registerOp, hc]
  · intro hst v hdec
    have hc := call_success configURL url q resp (by omega) (by omega)
    have hc2 := call_success configURL (url ++ "/" ++ id) q resp (by omega) (by omega)
    exact ⟨by simp [listOp, hc, hst, hdec], by simp [updateOp, hc2, hst, hdec]⟩
  · intro hne
    by_cases hin : 200 ≤ resp.statusCode ∧ resp.statusCode ≤ 299
    · have hc := call_success configURL url q resp hin.1 hin.2
      have hc2 := call_success configURL (url ++ "/" ++ id) q resp hin.1 hin.2
      exact ⟨⟨statusOnlyError resp.statusCode, rfl, by simp [listOp, hc, hne]⟩,
        ⟨statusOnlyError resp.statusCode, rfl, by simp [updateOp, hc2, hne]⟩⟩
    · have h2 : resp.statusCode < 200 ∨ resp.statusCode > 299 := by omega
      obtain ⟨re, hst, _, hcase⟩ := call_failure configURL url q resp h2
      obtain ⟨re2, hst2, _, hcase2⟩ := call_failure configURL (url ++ "/" ++ id) q resp h2
      constructor
      · refine ⟨re, hst, ?_⟩
        rcases hcase with hc | hc <;> simp [listOp, hc]
      · refine ⟨re2, hst2, ?_⟩
        rcases hcase2 with hc | hc <;> simp [updateOp, hc]
  · intro hst
    have hc := call_success configURL url q respU (by omega) (by omega)
    simp [deleteOp, hc, hst]
  · intro hne
    by_cases hin : 200 ≤ respU.statusCode ∧ respU.statusCode ≤ 299
    · have hc := call_success configURL url q respU hin.1 hin.2
      exact ⟨statusOnlyError respU.statusCode, rfl, by simp [deleteOp, hc, hne]⟩
    · have h2 : respU.statusCode < 200 ∨ respU.statusCode > 299 := by omega
      obtain ⟨re, hst, _, hcase⟩ := call_failure configURL url q respU h2
      refine ⟨re, hst, ?_⟩
      rcases hcase with hc | hc <;> simp [deleteOp, hc]

/-- Concrete response: status 201 with a decodable body. -/
def created201Resp : Resp Unit :=
  { statusCode := 201, errBody := ErrorBody.object none none, decode := Except.ok () }

/-- Closed instance of `C2_amended_status_mapping`: `register` succeeds
on a status-201 response with a decodable body. -/
theorem C2_amended_status_mapping_witness :
    registerOp (Except.ok ()) "http://sm.example.com" platformsURL none
      (Except.ok created201Resp) = Except.ok () :=
  (C2_amended_status_mapping "http://sm.example.com" platformsURL "id" none
      created201Resp created201Resp).1 rfl () rfl

/-- C3: on a status outside 200-299 whose body is a JSON object with
string fields `"error"` and `"description"`, the error `Call` returns
carries exactly those two strings; on such a status with an undecodable
body, the returned error still carries the status code and the request
URL, and the decoding failure itself is not propagated (the error is a
`ResponseError`, not the decode error). -/
theorem C3_error_body_best_effort {α : Type} (configURL smpath : String)
    (q : Option Parameters) (resp : Resp α)
    (hs : resp.statusCode < 200 ∨ resp.statusCode > 299) :
    (∀ emsg dmsg : String,
      resp.errBody = ErrorBody.object (some emsg) (some dmsg) →
      call configURL smpath q (Except.ok resp) =
        CallOutcome.errorOnly (SMError.responseError
          { url := normalizeURL configURL ++ buildURL smpath q
            statusCode := resp.statusCode
            errorMessage := emsg, description := dmsg })) ∧
    (resp.errBody = ErrorBody.unparsable →
      call configURL smpath q (Except.ok resp) =
        CallOutcome.respAndError resp (SMError.responseError
          { url := normalizeURL configURL ++ buildURL smpath q
            statusCode := resp.statusCode
            errorMessage := "", description := "" })) := by
  constructor
  · intro emsg dmsg hb
    simp [call, hs, hb]
  · intro hb
    simp [call, hs, hb]

/-- Concrete response: status 404 whose body carries `error` and
`description` strings. -/
def errBody404 : Resp Unit :=
  { statusCode := 404
    errBody := ErrorBody.object (some "invalid_token") (some "expired")
    decode := Except.ok () }

/-- Closed instance of `C3_error_body_best_effort`: the two body strings
are copied into the error verbatim. -/
theorem C3_error_body_best_effort_witness :
    call "http://sm.example.com" platformsURL none (Except.ok errBody404) =
      CallOutcome.errorOnly (SMError.responseError
        { url := normalizeURL "http://sm.example.com" ++ buildURL platformsURL none
          statusCode := 404
          errorMessage := "invalid_token", description := "expired" }) :=
  (C3_error_body_best_effort "http://sm.example.com" platformsURL none errBody404
    (by decide)).1 "invalid_token" "expired" rfl

/-- Concrete response: status 204 — inside 2xx but not the `list` success
code. -/
def noContent204Resp : Resp Unit :=
  { statusCode := 204, errBody := ErrorBody.object none none, decode := Except.ok () }

/-- C4 fails as stated: a list call answered with status 204 returns a
`ResponseError` whose URL field is empty rather than the request URL. -/
theorem C4_counterexample_list_204 :
    listOp "http://sm.example.com" platformsURL none (Except.ok noContent204Resp) =
      Except.error (SMError.responseError (statusOnlyError 204)) ∧
    (statusOnlyError 204).url = "" := ⟨rfl, rfl⟩

/-- C4 amended: Resource Errors produced by `Call` (status outside
200-299) carry both the status code and the full request URL, for every
operation; Resource Errors produced by an operation's own expected-status
check (status inside 200-299 but not the operation's success code) carry
the status code but an empty URL. -/
theorem C4_amended_error_fields {α : Type} (configURL url id : String)
    (q : Option Parameters) (resp : Resp α) (respU : Resp Unit) (respI : Resp Info) :
    ((resp.statusCode < 200 ∨ resp.statusCode > 299) →
      (∃ re : ResponseError, re.statusCode = resp.statusCode ∧
        re.url = normalizeURL configURL ++ buildURL url q ∧
        registerOp (Except.ok ()) configURL url q (Except.ok resp) =
          Except.error (SMError.responseError re) ∧
        listOp configURL url q (Except.ok resp) =
          Except.error (SMError.responseError re)) ∧
      (∃ re : ResponseError, re.statusCode = resp.statusCode ∧
        re.url = normalizeURL configURL ++ buildURL (url ++ "/" ++ id) q ∧
        updateOp (Except.ok ()) configURL url id q (Except.ok resp) =
          Except.error (SMError.responseError re))) ∧
    ((respU.statusCode < 200 ∨ respU.statusCode > 299) →
      (∃ re : ResponseError, re.statusCode = respU.statusCode ∧
        re.url = normalizeURL configURL ++ buildURL url q ∧
        deleteOp configURL url q (Except.ok respU) =
          Except.error (SMError.responseError re)) ∧
      (∃ re : ResponseError, re.statusCode = respU.statusCode ∧
        re.url = normalizeURL configURL ++ buildURL (url ++ "/" ++ id) q ∧
        labelOp (Except.ok ()) configURL url id q (Except.ok respU) =
          Except.error (SMError.responseError re))) ∧
    ((respI.statusCode < 200 ∨ respI.statusCode > 299) →
      ∃ re : ResponseError, re.statusCode = respI.statusCode ∧
        re.url = normalizeURL configURL ++ buildURL infoURL q ∧
        getInfo configURL q (Except.ok respI) =
          Except.error (SMError.responseError re)) ∧
    (200 ≤ resp.statusCode → resp.statusCode ≤ 299 → resp.statusCode ≠ 201 →
      registerOp (Except.ok ()) configURL url q (Except.ok resp) =
        Except.error (SMError.responseError (statusOnlyError resp.statusCode))) ∧
    (200 ≤ resp.statusCode → resp.statusCode ≤ 299 → resp.statusCode ≠ 200 →
      listOp configURL url q (Except.ok resp) =
        Except.error (SMError.responseError (statusOnlyError resp.statusCode)) ∧
      updateOp (Except.ok ()) configURL url id q (Except.ok resp) =
        Except.error (SMError.responseError (statusOnlyError resp.statusCode))) ∧
    (200 ≤ respU.statusCode → respU.statusCode ≤ 299 → respU.statusCode ≠ 200 →
      deleteOp configURL url q (Except.ok respU) =
        Except.error (SMError.responseError (statusOnlyError respU.statusCode)) ∧
      labelOp (Except.ok ()) configURL url id q (Except.ok respU) =
        Except.error (SMError.responseError (statusOnlyError respU.statusCode))) ∧
    (200 ≤ respI.statusCode → respI.statusCode ≤ 299 → respI.statusCode ≠ 200 →
      getInfo configURL q (Except.ok respI) =
        Except.error (SMError.responseError (statusOnlyError respI.statusCode))) ∧
    (∀ n : Nat, (statusOnlyError n).url = "") := by
  refine ⟨?_, ?_, ?_, ?_, ?_, ?_, ?_, fun n => rfl⟩
  · intro hs
    obtain ⟨re, hst, hurl, hcase⟩ := call_failure configURL url q resp hs
    obtain ⟨re2, hst2, hurl2, hcase2⟩ :=
      call_failure configURL (url ++ "/" ++ id) q resp hs
    constructor
    · refine ⟨re, hst, hurl, ?_, ?_⟩ <;>
        rcases hcase with hc | hc <;> simp [registerOp, listOp, hc]
    · refine ⟨re2, hst2, hurl2, ?_⟩
      rcases hcase2 with hc | hc <;> simp [updateOp, hc]
  · intro hs
    obtain ⟨re, hst, hurl, hcase⟩ := call_failure configURL url q respU hs
    obtain ⟨re2, hst2, hurl2, hcase2⟩ :=
      call_failure configURL (url ++ "/" ++ id) q respU hs
    constructor
    · refine ⟨re, hst, hurl, ?_⟩
      rcases hcase with hc | hc <;> simp [deleteOp, hc]
    · refine ⟨re2, hst2, hurl2, ?_⟩
      rcases hcase2 with hc | hc <;> simp [labelOp, hc]
  · intro hs
    obtain ⟨re, hst, hurl, hcase⟩ := call_failure configURL infoURL q respI hs
    refine ⟨re, hst, hurl, ?_⟩
    rcases hcase with hc | hc <;> simp [getInfo, hc]
  · intro h1 h2 hne
    have hc := call_success configURL url q resp h1 h2
    simp [registerOp, hc, hne]
  · intro h1 h2 hne
    have hc := call_success configURL url q resp h1 h2
    have hc2 := call_success configURL (url ++ "/" ++ id) q resp h1 h2
    exact ⟨by simp [listOp, hc, hne], by simp [updateOp, hc2, hne]⟩
  · intro h1 h2 hne
    have hc := call_success configURL url q respU h1 h2
    have hc2 := call_success configURL (url ++ "/" ++ id) q respU h1 h2
    exact ⟨by simp [deleteOp, hc, hne], by simp [labelOp, hc2, hne]⟩
  · intro h1 h2 hne
    have hc := call_success configURL infoURL q respI h1 h2
    simp [getInfo, hc, hne]

/-- Concrete response: status 500 with an undecodable body, for the info
endpoint. -/
def err500Resp : Resp Info :=
  { statusCode := 500, errBody := ErrorBody.unparsable
    decode := Except.error "bad body" }

/-- Closed instance of `C4_amended_error_fields`: a 500 on the info
endpoint yields an error carrying both the status and the request URL. -/
theorem C4_amended_error_fields_witness :
    ∃ re : ResponseError, re.statusCode = err500Resp.statusCode ∧
      re.url = normalizeURL "http://sm.example.com" ++ buildURL infoURL none ∧
      getInfo "http://sm.example.com" none (Except.ok err500Resp) =
        Except.error (SMError.responseError re) :=
  (C4_amended_error_fields "http://sm.example.com" platformsURL "id" none
      ok200Resp ok200Resp err500Resp).2.2.1 (by decide)

/-- Concrete response: status 404 with an unparsable body. -/
def unparsable404 : Resp Unit :=
  { statusCode := 404, errBody := ErrorBody.unparsable, decode := Except.ok () }

/-- C5 fails as stated: on a 404 response whose body cannot be decoded,
`Call` returns the raw (non-nil) response *together with* a non-nil
error. -/
theorem C5_counterexample_resp_and_error :
    call "http://sm.example.com" platformsURL none (Except.ok unparsable404) =
      CallOutcome.respAndError unparsable404
        (SMError.responseError
          { url := "http://sm.example.com/v1/platforms", statusCode := 404
            errorMessage := "", description := "" }) := by
  rfl

/-- C5 amended: `Call` returns the response with nil error exactly on
statuses 200-299; on any other status with a decodable body it returns
nil and the structured error; the single exception is a non-2xx response
whose body cannot be decoded, where `Call` returns the raw response
alongside the structured error.  Stated in both directions: every 2xx
response produces the success outcome, every non-2xx response with a
decodable body produces the structured error alone, and conversely a
both-non-nil outcome happens only for a non-2xx unparsable body and a
success outcome only for a 2xx status. -/
theorem C5_amended_call_exclusivity {α : Type} (configURL smpath : String)
    (q : Option Parameters) (doResult : Except String (Resp α)) :
    (∀ resp : Resp α, doResult = Except.ok resp →
      200 ≤ resp.statusCode → resp.statusCode ≤ 299 →
      call configURL smpath q doResult = CallOutcome.success resp) ∧
    (∀ (resp : Resp α) (ef df : Option String),
      doResult = Except.ok resp →
      (resp.statusCode < 200 ∨ resp.statusCode > 299) →
      resp.errBody = ErrorBody.object ef df →
      ∃ re : ResponseError, re.statusCode = resp.statusCode ∧
        re.url = normalizeURL configURL ++ buildURL smpath q ∧
        call configURL smpath q doResult =
          CallOutcome.errorOnly (SMError.responseError re)) ∧
    (∀ (resp : Resp α) (e : SMError),
      call configURL smpath q doResult = CallOutcome.respAndError resp e →
      (resp.statusCode < 200 ∨ resp.statusCode > 299) ∧
      resp.errBody = ErrorBody.unparsable ∧
      e = SMError.responseError
        { url := normalizeURL configURL ++ buildURL smpath q
          statusCode := resp.statusCode
          errorMessage := "", description := "" }) ∧
    (∀ resp : Resp α,
      call configURL smpath q doResult = CallOutcome.success resp →
      200 ≤ resp.statusCode ∧ resp.statusCode ≤ 299) := by
  refine ⟨?_, ?_, ?_, ?_⟩
  · intro resp hd h1 h2
    subst hd
    exact call_success configURL smpath q resp h1 h2
  · intro resp ef df hd hs hb
    subst hd
    refine ⟨{ url := normalizeURL configURL ++ buildURL smpath q
              statusCode := resp.statusCode
              errorMessage := ef.getD "", description := df.getD "" }, rfl, rfl, ?_⟩
    cases ef <;> cases df <;> simp [call, hs, hb]
  · intro resp e hc
    match hd : doResult with
    | Except.error e0 => simp [call, hd] at hc
    | Except.ok r0 =>
      by_cases hs : r0.statusCode < 200 ∨ r0.statusCode > 299
      · rcases hb : r0.errBody with _ | ⟨ef, df⟩
        · simp [call, hd, hs, hb] at hc
          obtain ⟨h1, h2⟩ := hc
          subst h1
          exact ⟨hs, hb, h2.symm⟩
        · simp [call, hd, hs, hb] at hc
      · simp [call, hd, hs] at hc
  · intro resp hc
    match hd : doResult with
    | Except.error e0 => simp [call, hd] at hc
    | Except.ok r0 =>
      by_cases hs : r0.statusCode < 200 ∨ r0.statusCode > 299
      · rcases hb : r0.errBody with _ | ⟨ef, df⟩ <;> simp [call, hd, hs, hb] at hc
      · simp [call, hd, hs] at hc
        subst hc
        omega

/-- Closed instances of `C5_amended_call_exclusivity`: a 200 response
comes back as the success outcome with nil error, and a 404 response
whose body decodes comes back as a nil response with the structured
error alone. -/
theorem C5_amended_call_exclusivity_witness :
    call "http://sm.example.com" platformsURL none (Except.ok ok200Resp) =
      CallOutcome.success ok200Resp ∧
    ∃ re : ResponseError, re.statusCode = errBody404.statusCode ∧
      re.url = normalizeURL "http://sm.example.com" ++ buildURL platformsURL none ∧
      call "http://sm.example.com" platformsURL none (Except.ok errBody404) =
        CallOutcome.errorOnly (SMError.responseError re) :=
  ⟨(C5_amended_call_exclusivity "http://sm.example.com" platformsURL none
      (Except.ok ok200Resp)).1 ok200Resp rfl (by decide) (by decide),
    (C5_amended_call_exclusivity "http://sm.example.com" platformsURL none
      (Except.ok errBody404)).2.1 errBody404 (some "invalid_token") (some "expired")
      rfl (by decide) rfl⟩

/-- C6: a discovery response with a status other than 200 makes
`fetchOpenidConfiguration` return an error and no configuration, and
`NewClientWithAuth` consequently returns no client: its construction
fails with that error. -/
theorem C6_discovery_non200_fails (config : ClientConfig)
    (infoDo : Except String (Resp Info))
    (readCfg : String → Except String (Resp OpenIDConfiguration))
    (getTok : Options → Except String AuthToken)
    (info : Info)
    (hinfo : getInfo config.url none infoDo = Except.ok info)
    (dresp : Resp OpenIDConfiguration)
    (hread : readCfg (info.tokenIssuerURL ++ "/.well-known/openid-configuration") =
      Except.ok dresp)
    (hst : dresp.statusCode ≠ 200) :
    fetchOpenidConfiguration info.tokenIssuerURL readCfg =
      Except.error "unexpected status code" ∧
    newClientWithAuth config infoDo readCfg getTok =
      Except.error (SMError.requestError "unexpected status code") := by
  have hfetch : fetchOpenidConfiguration info.tokenIssuerURL readCfg =
      Except.error "unexpected status code" := by
    simp [fetchOpenidConfiguration, hread, hst]
  refine ⟨hfetch, ?_⟩
  simp [newClientWithAuth, hinfo, newOpenIDStrategy, hfetch]

/-- Concrete client configuration for witness instantiations. -/
def sampleClientConfig : ClientConfig :=
  { url := "http://sm.example.com", clientID := "cf"
    clientSecret := "secret", sslDisabled := false }

/-- Concrete info response naming the token issuer. -/
def sampleInfoResp : Resp Info :=
  { statusCode := 200, errBody := ErrorBody.object none none
    decode := Except.ok { tokenIssuerURL := "https://uaa.example.com" } }

/-- Concrete discovery response with status 500. -/
def discovery500 : Resp OpenIDConfiguration :=
  { statusCode := 500, errBody := ErrorBody.unparsable
    decode := Except.error "bad json" }

/-- Closed instance of `C6_discovery_non200_fails`: a 500 on the
discovery document fails client construction. -/
theorem C6_discovery_non200_fails_witness :
    fetchOpenidConfiguration "https://uaa.example.com"
      (fun _ => Except.ok discovery500) =
      Except.error "unexpected status code" ∧
    newClientWithAuth sampleClientConfig (Except.ok sampleInfoResp)
      (fun _ => Except.ok discovery500) (fun _ => Except.error "no token") =
      Except.error (SMError.requestError "unexpected status code") :=
  C6_discovery_non200_fails sampleClientConfig (Except.ok sampleInfoResp)
    (fun _ => Except.ok discovery500) (fun _ => Except.error "no token")
    { tokenIssuerURL := "https://uaa.example.com" } rfl discovery500 rfl (by decide)

/-- C9: with nil query `Parameters` and a successful offerings response
whose list is non-empty, `ListOfferings` dereferences the nil pointer
(reading `q.GeneralParams`) and panics, while `ListPlatforms`,
`ListBrokers` and `ListVisibilities` accept nil `Parameters` for every
transport outcome. -/
theorem C9_listOfferings_nil_query_panics (configURL : String)
    (offs : ServiceOfferings)
    (doOfferings : Except String (Resp ServiceOfferings))
    (doPlans : Nat → Except String (Resp ServicePlans))
    (doBroker : Nat → Except String (Resp Broker))
    (resp : Resp ServiceOfferings)
    (hdo : doOfferings = Except.ok resp)
    (hst : resp.statusCode = 200)
    (hdec : resp.decode = Except.ok offs)
    (hne : offs.serviceOfferings ≠ []) :
    listOfferings configURL none doOfferings doPlans doBroker = GoResult.panicked ∧
    (∀ dr, listPlatforms configURL none dr ≠ GoResult.panicked) ∧
    (∀ dr, listBrokers configURL none dr ≠ GoResult.panicked) ∧
    (∀ dr, listVisibilities configURL none dr ≠ GoResult.panicked) := by
  have hcall : call configURL serviceOfferingsURL none (Except.ok resp) =
      CallOutcome.success resp :=
    call_success configURL serviceOfferingsURL none resp (by omega) (by omega)
  have hlist : listOp configURL serviceOfferingsURL none doOfferings =
      Except.ok offs := by
    simp [listOp, hdo, hcall, hst, hdec]
  refine ⟨?_, ?_, ?_, ?_⟩
  · rcases hoffs : offs.serviceOfferings with _ | ⟨so, rest⟩
    · exact absurd hoffs hne
    · simp [listOfferings, hlist, hoffs, listOfferingsLoop, readGeneralParams]
  · intro dr
    cases hres : listOp configURL platformsURL none dr with
    | ok v => simp [listPlatforms, hres]
    | error e => simp [listPlatforms, hres]
  · intro dr
    cases hres : listOp configURL serviceBrokersURL none dr with
    | ok v => simp [listBrokers, hres]
    | error e => simp [listBrokers, hres]
  · intro dr
    cases hres : listOp configURL visibilitiesURL none dr with
    | ok v => simp [listVisibilities, hres]
    | error e => simp [listVisibilities, hres]

/-- Concrete offering for the `ListOfferings` witness. -/
def sampleOffering : ServiceOffering :=
  { id := "off-1", brokerID := "br-1", plans := [], brokerName := "" }

/-- Concrete offerings response: status 200, one offering. -/
def offerings200 : Resp ServiceOfferings :=
  { statusCode := 200, errBody := ErrorBody.object none none
    decode := Except.ok { serviceOfferings := [sampleOffering] } }

/-- Closed instance of `C9_listOfferings_nil_query_panics` at a one-element
offerings response. -/
theorem C9_listOfferings_nil_query_panics_witness :
    listOfferings "http://sm.example.com" none (Except.ok offerings200)
      (fun _ => Except.error "unused") (fun _ => Except.error "unused") =
      GoResult.panicked ∧
    (∀ dr, listPlatforms "http://sm.example.com" none dr ≠ GoResult.panicked) ∧
    (∀ dr, listBrokers "http://sm.example.com" none dr ≠ GoResult.panicked) ∧
    (∀ dr, listVisibilities "http://sm.example.com" none dr ≠ GoResult.panicked) :=
  C9_listOfferings_nil_query_panics "http://sm.example.com"
    { serviceOfferings := [sampleOffering] } (Except.ok offerings200)
    (fun _ => Except.error "unused") (fun _ => Except.error "unused")
    offerings200 rfl rfl rfl (by decide)

/-- C1: `NewClient` constructs the client-credentials source exactly when
the seed token is absent or its refresh-token field is empty, otherwise
the refresh-token source seeded with the supplied token; the two iffs make
the choice exclusive, so exactly one source is constructed per call, and
the source's cached token is the converted seed in either case. -/
theorem C1_newClient_source_selection (options : Options) :
    (newClient options none).tokenSource.kind = TokenSourceKind.clientCredentials ∧
    (∀ t : AuthToken,
      ((newClient options (some t)).tokenSource.kind =
          TokenSourceKind.clientCredentials ↔ t.refreshToken = "") ∧
      ((newClient options (some t)).tokenSource.kind =
          TokenSourceKind.refreshToken ↔ ¬ t.refreshToken = "") ∧
      (newClient options (some t)).tokenSource.cached = toOauth2Token (some t)) := by
  refine ⟨rfl, fun t => ?_⟩
  by_cases h : t.refreshToken = "" <;>
    simp [newClient, toOauth2Token, clientCredentialsTokenSource, refreshTokenSource, h]

/-- C7: the client-credentials source installs its seed token as the
initial cached token (even a seed with no refresh token); while the seed
is valid a `Token()` call returns it unchanged with zero token-endpoint
exchanges, and any sequence of calls made while it stays valid performs
zero exchanges and leaves the source unchanged.  `NewClient` wires a
refresh-less seed into exactly this source. -/
theorem C7_client_credentials_seed_reuse (options : Options) (seed : Oauth2Token) :
    (clientCredentialsTokenSource options seed).cached = seed ∧
    (∀ t : AuthToken, t.refreshToken = "" →
      newClient options (some t) =
        { tokenSource := clientCredentialsTokenSource options (toOauth2Token (some t)) }) ∧
    (∀ now exchange, tokenValid seed now = true →
      reuseTokenSourceToken seed now exchange = (Except.ok seed, seed, 0)) ∧
    (∀ calls : List (Int × Except String Oauth2Token),
      (∀ p ∈ calls, tokenValid seed p.1 = true) →
      runTokenCallsCount { tokenSource := clientCredentialsTokenSource options seed } calls =
        ({ tokenSource := clientCredentialsTokenSource options seed }, 0)) := by
  refine ⟨rfl, ?_, ?_, ?_⟩
  · intro t ht
    simp [newClient, toOauth2Token, ht]
  · intro now exchange hv
    simp [reuseTokenSourceToken, hv]
  · intro calls h
    exact runTokenCallsCount_of_valid (clientCredentialsTokenSource options seed) calls h

/-- C8: a client constructed from a refresh-capable seed token uses the
refresh-token source, no `Token()` call ever changes that strategy (the
`tokenSource` field is only set at construction), and when the cached
token is stale a failing refresh exchange surfaces its error on every
such call. -/
theorem C8_strategy_immutability (options : Options) (t : AuthToken)
    (hrt : t.refreshToken ≠ "") :
    (newClient options (some t)).tokenSource.kind = TokenSourceKind.refreshToken ∧
    (∀ calls : List (Int × Except String Oauth2Token),
      (runTokenCalls (newClient options (some t)) calls).tokenSource.kind =
        TokenSourceKind.refreshToken) ∧
    (∀ (c : OIDCClient) (now : Int) (exchange : Except String Oauth2Token),
      (clientTokenStep c now exchange).2.1.tokenSource.kind = c.tokenSource.kind) ∧
    (∀ (c : OIDCClient) (now : Int) (emsg : String),
      tokenValid c.tokenSource.cached now = false →
      (clientTokenStep c now (Except.error emsg)).1 = Except.error emsg) := by
  have hkind : (newClient options (some t)).tokenSource.kind =
      TokenSourceKind.refreshToken := by
    simp [newClient, toOauth2Token, refreshTokenSource, hrt]
  refine ⟨hkind, ?_, ?_, ?_⟩
  · intro calls
    rw [runTokenCalls_kind calls, hkind]
  · intro c now exchange
    exact clientTokenStep_kind c now exchange
  · intro c now emsg hstale
    simp [clientTokenStep, reuseTokenSourceToken, hstale]

/-- Closed instance of `C8_strategy_immutability` at a concrete
refresh-capable token. -/
theorem C8_strategy_immutability_witness :
    (newClient sampleOptions (some sampleToken)).tokenSource.kind =
        TokenSourceKind.refreshToken ∧
    (∀ calls : List (Int × Except String Oauth2Token),
      (runTokenCalls (newClient sampleOptions (some sampleToken)) calls).tokenSource.kind =
        TokenSourceKind.refreshToken) ∧
    (∀ (c : OIDCClient) (now : Int) (exchange : Except String Oauth2Token),
      (clientTokenStep c now exchange).2.1.tokenSource.kind = c.tokenSource.kind) ∧
    (∀ (c : OIDCClient) (now : Int) (emsg : String),
      tokenValid c.tokenSource.cached now = false →
      (clientTokenStep c now (Except.error emsg)).1 = Except.error emsg) :=
  C8_strategy_immutability sampleOptions sampleToken (by decide)

/-- C10: converting an `auth.Token` to an `oauth2.Token` at construction
and back through `Client.Token()` preserves all four fields: when the
source returns its cached token unchanged (the seed is still valid),
`Token()` yields exactly the seed token. -/
theorem C10_token_conversion_roundtrip (options : Options) (t : AuthToken)
    (now : Int) (exchange : Except String Oauth2Token)
    (hvalid : tokenValid (toOauth2Token (some t)) now = true) :
    fromOauth2Token (toOauth2Token (some t)) = t ∧
    (clientTokenMethod (newClient options (some t)) now exchange).1 = Except.ok t := by
  have hround : fromOauth2Token (toOauth2Token (some t)) = t := by
    cases t; rfl
  have hc : (newClient options (some t)).tokenSource.cached = toOauth2Token (some t) := by
    by_cases h : t.refreshToken = "" <;>
      simp [newClient, toOauth2Token, clientCredentialsTokenSource, refreshTokenSource, h]
  refine ⟨hround, ?_⟩
  simp [clientTokenMethod, clientTokenStep, reuseTokenSourceToken, hc, hvalid, hround]

/-- Closed instance of `C10_token_conversion_roundtrip` at a concrete
token that is valid at the chosen clock reading. -/
theorem C10_token_conversion_roundtrip_witness :
    fromOauth2Token (toOauth2Token (some sampleToken)) = sampleToken ∧
    (clientTokenMethod (newClient sampleOptions (some sampleToken)) 0
        (Except.error "token endpoint unreachable")).1 = Except.ok sampleToken :=
  C10_token_conversion_roundtrip sampleOptions sampleToken 0
    (Except.error "token endpoint unreachable") (by decide)

end SM
